import Mathlib

/-!
Shallow embedding of the krupki/weathersync repository: the weathersync
library (Location, WeatherData, Client.FetchWeather, Client.FetchMultiple)
and the weather-compare pipeline (models.WeatherResult,
fetcher.FetchWeatherData, comparer.CompareWeatherData), together with
proofs of the behavioural properties stated in the specification.

Modelling conventions:
- float64 values (temperatures, durations measured in seconds) are
  modelled as Rat;
- time.Duration values handed to the report formatter are modelled as Nat
  nanoseconds, time.Time stamps as Nat ticks;
- a Go error value is modelled as Option String (none = nil);
- the network is modelled as an oracle describing, per call, the reply the
  remote end would deliver and the wall-clock time the call would take;
- the nondeterminism of goroutine completion and of Go map iteration is
  made explicit as an order parameter, quantified over in the theorems.
-/

/-- Decidable equality for Except, needed so that concrete runs of the
embedded fetchers can be evaluated by decide. -/
instance {α β : Type} [DecidableEq α] [DecidableEq β] : DecidableEq (Except α β) :=
  fun a b =>
    match a, b with
    | Except.error x, Except.error y => decidable_of_iff (x = y) (by simp)
    | Except.error _, Except.ok _ => Decidable.isFalse (by simp)
    | Except.ok _, Except.error _ => Decidable.isFalse (by simp)
    | Except.ok x, Except.ok y => decidable_of_iff (x = y) (by simp)

namespace Weathersync

/-- Location mirrors weathersync.Location (weather.go). -/
structure Location where
  name : String
  latitude : Rat
  longitude : Rat
deriving DecidableEq

/-- WeatherData mirrors weathersync.WeatherData (weather.go): the Timestamp
field is modelled as a Nat tick and the Error field as Option String
(none = nil). -/
structure WeatherData where
  location : Location
  temperature : Rat
  fetchDuration : Rat
  timestamp : Nat
  error : Option String
deriving DecidableEq

/-- Reply of one remote forecast call as seen by FetchWeather after JSON
decoding: either the transport failed, or a status code arrived together
with the decode outcome of the body (Except.ok carries the
current.temperature_2m field). -/
inductive WsResponse where
  | transportError (msg : String)
  | reply (status : Nat) (decoded : Except String Rat)
deriving DecidableEq

/-- Behaviour of the remote endpoint for one location: the reply that would
arrive if the call ran to completion, how long that would take in seconds,
and the time.Now() stamp taken on success. -/
structure WsCall where
  response : WsResponse
  naturalSeconds : Rat
  stamp : Nat
deriving DecidableEq

/-- Modelled from the spec: the Go HTTP client (net/http, outside this
repository) honours the context attached to the request. When the context
deadline elapses before the call completes naturally, the in-flight call is
abandoned at the deadline and a transport error is returned; otherwise the
natural reply arrives at its natural time. FetchWeather attaches the caller
context to its request via http.NewRequestWithContext, so its transport
runs under this rule. -/
def runWsCall (c : WsCall) (deadline : Option Rat) : WsResponse × Rat :=
  match deadline with
  | none => (c.response, c.naturalSeconds)
  | some d =>
    if d < c.naturalSeconds then (WsResponse.transportError "context deadline exceeded", d)
    else (c.response, c.naturalSeconds)

/-- FetchWeather mirrors Client.FetchWeather (client.go). The env oracle
stands for the remote endpoint reached through the request URL built from
the location, the deadline argument for the caller context (the
option-pattern client timeout is absorbed into it). The
request-construction error branch of the source is unreachable for the
fixed method and well-formed URL and is not modelled. -/
def FetchWeather (env : Location → WsCall) (deadline : Option Rat) (loc : Location) :
    Except String WeatherData :=
  let c := env loc
  let r := runWsCall c deadline
  match r.1 with
  | WsResponse.transportError msg => Except.error ("http request: " ++ msg)
  | WsResponse.reply status decoded =>
    if status ≠ 200 then Except.error ("API returned status " ++ toString status)
    else
      match decoded with
      | Except.error msg => Except.error ("decode response: " ++ msg)
      | Except.ok temp =>
        Except.ok { location := loc, temperature := temp, fetchDuration := r.2,
                    timestamp := c.stamp, error := none }

/-- One goroutine body of FetchMultiple (client.go): on success the fetched
record fills the slot, on failure a record holding only the location and
the error fills it, the remaining fields keeping the Go zero value. -/
def fetchSlot (env : Location → WsCall) (deadline : Option Rat) (loc : Location) : WeatherData :=
  match FetchWeather env deadline loc with
  | Except.ok data => data
  | Except.error e =>
    { location := loc, temperature := 0, fetchDuration := 0, timestamp := 0, error := some e }

/-- Go zero value of WeatherData: the content of the freshly made results
slice before any goroutine writes its slot. -/
def zeroWeatherData : WeatherData :=
  { location := { name := "", latitude := 0, longitude := 0 }, temperature := 0,
    fetchDuration := 0, timestamp := 0, error := none }

/-- One slot write, results[index] = ..., as performed by the goroutine for
index i. -/
def writeSlot (env : Location → WsCall) (deadline : Option Rat) (locations : List Location)
    (acc : List WeatherData) (i : Nat) : List WeatherData :=
  match locations[i]? with
  | some loc => acc.set i (fetchSlot env deadline loc)
  | none => acc

/-- FetchMultiple mirrors Client.FetchMultiple (client.go): a slice of
len(locations) zero values is filled by one write per goroutine. The order
argument is the completion order of the goroutines, wg.Wait() making every
write happen before the slice is returned. -/
def FetchMultiple (env : Location → WsCall) (deadline : Option Rat) (locations : List Location)
    (order : List Nat) : List WeatherData :=
  order.foldl (writeSlot env deadline locations) (List.replicate locations.length zeroWeatherData)

/-- Remote calls issued by FetchMultiple: the loop launches exactly one
goroutine per input location and each goroutine calls FetchWeather exactly
once; listed here in completion order. -/
def fetchCalls (locations : List Location) (order : List Nat) : List Location :=
  order.foldl (fun tr i =>
    match locations[i]? with
    | some loc => tr ++ [loc]
    | none => tr) []

end Weathersync

namespace WeatherCompare

/-- WeatherResult mirrors models.WeatherResult (weather-compare): the Error
field is modelled as Option String (none = nil). -/
structure WeatherResult where
  city : String
  temperature : Rat
  continent : String
  error : Option String
  fetchDurationSeconds : Rat
deriving DecidableEq

/-- Reply of one Open-Meteo call as seen by FetchWeatherData after JSON
decoding: a transport failure, or a status code with the decode outcome of
the body (Except.ok carries the hourly.temperature_2m array). -/
inductive WcResponse where
  | transportError (msg : String)
  | reply (status : Nat) (decoded : Except String (List Rat))
deriving DecidableEq

/-- Behaviour of the remote endpoint for one call: the reply that would
arrive and the wall-clock seconds the call takes. -/
structure WcCall where
  response : WcResponse
  naturalSeconds : Rat
deriving DecidableEq

/-- Transport used by FetchWeatherData: http.Get attaches no context to the
request and the default client carries no timeout, so the call always runs
to its natural completion and delivers its natural reply. -/
def runWcCall (c : WcCall) : WcResponse × Rat :=
  (c.response, c.naturalSeconds)

/-- FetchWeatherData mirrors fetcher.FetchWeatherData (fetcher.go): each
error path fills City, Error and FetchDurationSeconds of the result and
returns a non-nil function error alongside; the success path fills City,
Temperature and FetchDurationSeconds with a nil function error. The lat
and lon arguments only select the remote endpoint, which the call oracle
already fixes. -/
def FetchWeatherData (c : WcCall) (city : String) (lat lon : Rat) :
    WeatherResult × Option String :=
  let r := runWcCall c
  match r.1 with
  | WcResponse.transportError msg =>
    ({ city := city, temperature := 0, continent := "",
       error := some ("HTTP error: " ++ msg), fetchDurationSeconds := r.2 }, some msg)
  | WcResponse.reply status decoded =>
    if status ≠ 200 then
      ({ city := city, temperature := 0, continent := "",
         error := some ("API status " ++ toString status),
         fetchDurationSeconds := r.2 }, some ("API status " ++ toString status))
    else
      match decoded with
      | Except.error msg =>
        ({ city := city, temperature := 0, continent := "",
           error := some ("JSON error: " ++ msg), fetchDurationSeconds := r.2 }, some msg)
      | Except.ok temps =>
        match temps with
        | [] =>
          ({ city := city, temperature := 0, continent := "",
             error := some "no temperature data", fetchDurationSeconds := r.2 },
           some "no temperature data")
        | t :: _ =>
          ({ city := city, temperature := t, continent := "", error := none,
             fetchDurationSeconds := r.2 }, none)

/-- Accumulator of the per-group statistics loop of CompareWeatherData
(comparer.go). The Go code initialises the min and max trackers with
positive and negative infinity; here none stands for the still-unset
sentinel, so that some m holds exactly once one value has been folded in. -/
structure GroupStatsAcc where
  tempSum : Rat
  tempCount : Nat
  minTemp : Option Rat
  maxTemp : Option Rat
  fetchSum : Rat
  fetchCount : Nat
  minFetch : Option Rat
  maxFetch : Option Rat
deriving DecidableEq

/-- Initial accumulator: sums and counts zero, min and max trackers at
their infinity sentinels. -/
def initStats : GroupStatsAcc :=
  { tempSum := 0, tempCount := 0, minTemp := none, maxTemp := none,
    fetchSum := 0, fetchCount := 0, minFetch := none, maxFetch := none }

/-- Body of the statistics loop for one item: the temperature fields are
touched only when it.Error == nil, the fetch-duration fields on every
item. -/
def statsStep (acc : GroupStatsAcc) (it : WeatherResult) : GroupStatsAcc :=
  let acc1 :=
    if it.error.isNone then
      { acc with
        tempSum := acc.tempSum + it.temperature
        tempCount := acc.tempCount + 1
        minTemp := some (match acc.minTemp with
          | none => it.temperature
          | some m => if it.temperature < m then it.temperature else m)
        maxTemp := some (match acc.maxTemp with
          | none => it.temperature
          | some m => if it.temperature > m then it.temperature else m) }
    else acc
  { acc1 with
    fetchSum := acc1.fetchSum + it.fetchDurationSeconds
    fetchCount := acc1.fetchCount + 1
    minFetch := some (match acc1.minFetch with
      | none => it.fetchDurationSeconds
      | some m => if it.fetchDurationSeconds < m then it.fetchDurationSeconds else m)
    maxFetch := some (match acc1.maxFetch with
      | none => it.fetchDurationSeconds
      | some m => if it.fetchDurationSeconds > m then it.fetchDurationSeconds else m) }

/-- Statistics of one group: the loop body folded over the items of the
group in order. -/
def groupStats (items : List WeatherResult) : GroupStatsAcc :=
  items.foldl statsStep initStats

/-- Items of a list whose fetch did not fail. -/
def validItems (items : List WeatherResult) : List WeatherResult :=
  items.filter (fun it => it.error.isNone)

/-- Minimum of a list of Rat values, none for the empty list; reference
function for the min trackers of the statistics loop. -/
def optMinList : List Rat → Option Rat
  | [] => none
  | x :: xs =>
    match optMinList xs with
    | none => some x
    | some m => some (min x m)

/-- Maximum of a list of Rat values, none for the empty list. -/
def optMaxList : List Rat → Option Rat
  | [] => none
  | x :: xs =>
    match optMaxList xs with
    | none => some x
    | some m => some (max x m)

/-- Combination of two optional minima, none acting as the neutral
infinity sentinel. -/
def combineMin : Option Rat → Option Rat → Option Rat
  | none, b => b
  | some x, none => some x
  | some x, some y => some (min x y)

/-- Combination of two optional maxima, none acting as the neutral
sentinel. -/
def combineMax : Option Rat → Option Rat → Option Rat
  | none, b => b
  | some x, none => some x
  | some x, some y => some (max x y)

/-- Left-pads a digit string with zeros to the given width. -/
def padZeros (width : Nat) (s : String) : String :=
  String.mk (List.replicate (width - s.length) '0') ++ s

/-- Removes trailing zero digits. -/
def dropTrailingZeros (s : String) : String :=
  String.mk ((s.data.reverse.dropWhile (fun ch => ch == '0')).reverse)

/-- Fixed-point rendering of a Rat with the given number of fraction
digits, the analogue of the %.1f style verbs of fmt applied to the float64
values that the Rat fields model; rounding is to nearest, half away from
zero. -/
def fmtFixed (prec : Nat) (q : Rat) : String :=
  let den : Nat := 10 ^ prec
  let neg := q < 0
  let a : Rat := if neg then -q else q
  let scaled : Nat := (a * (den : Rat) + 1 / 2).floor.toNat
  let ip := scaled / den
  let fp := scaled % den
  (if neg then "-" else "") ++ toString ip ++
    (if prec = 0 then "" else "." ++ padZeros prec (toString fp))

/-- Fraction part of a duration unit: a decimal point and the fraction
digits with trailing zeros removed, or nothing when the fraction is
zero. -/
def durFrac (digits frac : Nat) : String :=
  if frac = 0 then "" else "." ++ dropTrailingZeros (padZeros digits (toString frac))

/-- Rendering of a nonnegative time.Duration (Nat nanoseconds) in the
style of Duration.String: ns, µs or ms below one second, otherwise h, m
and s components with a fractional seconds part. -/
def fmtGoDuration (n : Nat) : String :=
  if n = 0 then "0s"
  else if n < 1000 then toString n ++ "ns"
  else if n < 1000000 then toString (n / 1000) ++ durFrac 3 (n % 1000) ++ "µs"
  else if n < 1000000000 then toString (n / 1000000) ++ durFrac 6 (n % 1000000) ++ "ms"
  else
    let sec := n / 1000000000
    let fr := durFrac 9 (n % 1000000000)
    if sec < 60 then toString sec ++ fr ++ "s"
    else if sec < 3600 then toString (sec / 60) ++ "m" ++ toString (sec % 60) ++ fr ++ "s"
    else
      toString (sec / 3600) ++ "h" ++ toString (sec / 60 % 60) ++ "m" ++
        toString (sec % 60) ++ fr ++ "s"

/-- Per-city line of the report. -/
def itemLine (it : WeatherResult) : String :=
  match it.error with
  | some e =>
    "  " ++ it.city ++ ": ERROR: " ++ e ++ " (fetch " ++
      fmtFixed 3 it.fetchDurationSeconds ++ "s)\n"
  | none =>
    "  " ++ it.city ++ ": " ++ fmtFixed 1 it.temperature ++ " °C (fetch " ++
      fmtFixed 3 it.fetchDurationSeconds ++ "s)\n"

/-- Wall-time line of a group section: printed only when the continent has
an entry in the durations map, with the duration truncated to whole
milliseconds. -/
def wallTimePortion (cont : String) (contDurations : List (String × Nat)) : String :=
  match contDurations.lookup cont with
  | some d => "Continent total wall time: " ++ fmtGoDuration (d / 1000000 * 1000000) ++ "\n"
  | none => ""

/-- Temperature-statistics line of a group section: the average, min and
max are rendered only when at least one valid item was counted, otherwise
the no-valid-data marker is printed; the division by tempCount therefore
only happens with tempCount positive. Inside the guarded branch the min
and max trackers are necessarily set, getD 0 merely unwraps them. -/
def tempPortion (s : GroupStatsAcc) : String :=
  if s.tempCount > 0 then
    "Cities with valid temperature: " ++ toString s.tempCount ++ ", Avg: " ++
      fmtFixed 2 (s.tempSum / (s.tempCount : Rat)) ++ " °C, Min: " ++
      fmtFixed 1 (s.minTemp.getD 0) ++ " °C, Max: " ++ fmtFixed 1 (s.maxTemp.getD 0) ++ " °C\n"
  else "No valid temperature data for this continent.\n"

/-- Fetch-time statistics line of a group section, rendered when the group
holds at least one item. -/
def fetchPortion (s : GroupStatsAcc) : String :=
  if s.fetchCount > 0 then
    "Fetch times (s): Avg: " ++ fmtFixed 3 (s.fetchSum / (s.fetchCount : Rat)) ++ ", Min: " ++
      fmtFixed 3 (s.minFetch.getD 0) ++ ", Max: " ++ fmtFixed 3 (s.maxFetch.getD 0) ++ "\n"
  else ""

/-- Grouping loop of CompareWeatherData: the groups map sends each
continent to the items carrying it, appended in input order. -/
def groupsOf (weatherData : List WeatherResult) : String → List WeatherResult :=
  weatherData.foldl
    (fun groups r => fun c => if c == r.continent then groups c ++ [r] else groups c)
    (fun _ => [])

/-- Section of the report for one continent. -/
def groupSection (cont : String) (items : List WeatherResult)
    (contDurations : List (String × Nat)) : String :=
  "\nContinent: " ++ cont ++ "\n" ++ "----------------------------------------\n" ++
    wallTimePortion cont contDurations ++
    tempPortion (groupStats items) ++
    fetchPortion (groupStats items) ++
    "\nPer-city results:\n" ++
    String.join (items.map itemLine)

/-- CompareWeatherData mirrors comparer.CompareWeatherData (comparer.go).
The Go map over which the group loop ranges has an unspecified iteration
order; contOrder makes that order explicit, one run of the Go function
corresponding to one permutation of the distinct continents. The durations
map is modelled as an association list with Nat nanosecond values. -/
def CompareWeatherData (weatherData : List WeatherResult)
    (contDurations : List (String × Nat)) (contOrder : List String) : String :=
  if weatherData.isEmpty then "No weather data to compare."
  else
    "Weather comparison summary\n" ++ "========================================\n" ++
      String.join (contOrder.map (fun cont =>
        groupSection cont (groupsOf weatherData cont) contDurations))

/-- Distinct continents of the input, the key set of the groups map. -/
def contKeys (weatherData : List WeatherResult) : List String :=
  (weatherData.map (fun r => r.continent)).dedup

end WeatherCompare

namespace Weathersync

/-- Example endpoint behaviour where every call succeeds with 15 degrees
after one second. -/
def exEnv1 : Location → WsCall :=
  fun _ => { response := WsResponse.reply 200 (Except.ok 15), naturalSeconds := 1, stamp := 7 }

/-- Example input list of two locations. -/
def exLocs1 : List Location :=
  [{ name := "Berlin", latitude := 52, longitude := 13 },
   { name := "Tokyo", latitude := 35, longitude := 139 }]

/-- Example endpoint behaviour where exactly the location named Bad fails
with a 500 status. -/
def exEnv2 : Location → WsCall :=
  fun loc =>
    if loc.name = "Bad"
    then { response := WsResponse.reply 500 (Except.error "empty"), naturalSeconds := 1, stamp := 0 }
    else { response := WsResponse.reply 200 (Except.ok 15), naturalSeconds := 1, stamp := 3 }

/-- Example input list with a failing location between two succeeding
ones. -/
def exLocs2 : List Location :=
  [{ name := "Berlin", latitude := 52, longitude := 13 },
   { name := "Bad", latitude := 0, longitude := 0 },
   { name := "Tokyo", latitude := 35, longitude := 139 }]

/-- Example endpoint behaviour where every call fails at the transport
after five seconds of wall time. -/
def exEnv5 : Location → WsCall :=
  fun _ => { response := WsResponse.transportError "connection refused", naturalSeconds := 5,
             stamp := 0 }

/-- Example location for the duration claims. -/
def exLoc5 : Location := { name := "Berlin", latitude := 52, longitude := 13 }

/-- Example endpoint behaviour whose natural completion takes ten
seconds. -/
def exEnv9 : Location → WsCall :=
  fun _ => { response := WsResponse.reply 200 (Except.ok 15), naturalSeconds := 10, stamp := 0 }

/-- Example location for the deadline claim. -/
def exLoc9 : Location := { name := "Paris", latitude := 48, longitude := 2 }

/-- Example endpoint behaviour where every call succeeds after two
seconds. -/
def exEnv5b : Location → WsCall :=
  fun _ => { response := WsResponse.reply 200 (Except.ok 15), naturalSeconds := 2, stamp := 3 }

end Weathersync

namespace WeatherCompare

/-- Example call whose natural completion delivers a valid reply only
after ten seconds. -/
def exCall9 : WcCall :=
  { response := WcResponse.reply 200 (Except.ok [15]), naturalSeconds := 10 }

/-- Example call for the duration claim: a success after half a second. -/
def exCall5 : WcCall :=
  { response := WcResponse.reply 200 (Except.ok [21]), naturalSeconds := 1 / 2 }

/-- Example group whose items all failed. -/
def exItems4 : List WeatherResult :=
  [{ city := "Lagos", temperature := 0, continent := "Africa", error := some "API status 500",
     fetchDurationSeconds := 1 / 10 },
   { city := "Cairo", temperature := 0, continent := "Africa", error := some "no temperature data",
     fetchDurationSeconds := 1 / 5 }]

/-- Example input spanning two continents. -/
def exData6 : List WeatherResult :=
  [{ city := "Berlin", temperature := 10, continent := "Europe", error := none,
     fetchDurationSeconds := 1 / 10 },
   { city := "Tokyo", temperature := 20, continent := "Asia", error := none,
     fetchDurationSeconds := 1 / 5 }]

/-- Example input lying in a single continent. -/
def exData6b : List WeatherResult :=
  [{ city := "Berlin", temperature := 10, continent := "Europe", error := none,
     fetchDurationSeconds := 1 / 10 },
   { city := "Paris", temperature := 12, continent := "Europe", error := none,
     fetchDurationSeconds := 1 / 5 }]

/-- Example input with one failed item among three, spanning two
continents. -/
def exData7 : List WeatherResult :=
  [{ city := "Berlin", temperature := 10, continent := "Europe", error := none,
     fetchDurationSeconds := 1 / 10 },
   { city := "Lagos", temperature := 0, continent := "Africa", error := some "API status 500",
     fetchDurationSeconds := 1 / 5 },
   { city := "Paris", temperature := 12, continent := "Europe", error := none,
     fetchDurationSeconds := 1 / 20 }]

end WeatherCompare

namespace Weathersync

theorem length_writeSlot (env deadline locations acc i) :
    (writeSlot env deadline locations acc i).length = acc.length := by
  unfold writeSlot
  cases h : locations[i]? <;> simp [h]

theorem length_foldl_writeSlot (env deadline locations) (order : List Nat)
    (acc : List WeatherData) :
    (order.foldl (writeSlot env deadline locations) acc).length = acc.length := by
  induction order generalizing acc with
  | nil => rfl
  | cons j rest ih =>
      simpa [List.foldl_cons, length_writeSlot] using ih (writeSlot env deadline locations acc j)

theorem getElem?_writeSlot (env deadline locations acc i j) :
    (writeSlot env deadline locations acc j)[i]? =
      if i = j ∧ j < locations.length
      then if i < acc.length then locations[j]?.map (fetchSlot env deadline) else acc[i]?
      else acc[i]? := by
  unfold writeSlot
  cases hj : locations[j]? with
  | none =>
      have hlej : locations.length ≤ j := by simpa using hj
      have hcond : ¬(i = j ∧ j < locations.length) := by omega
      simp [hcond]
  | some loc =>
      have hjlen : j < locations.length := (List.getElem?_eq_some_iff.mp hj).1
      by_cases hij : i = j
      · subst hij
        by_cases hi : i < acc.length
        · simp [hjlen, hi, List.getElem?_set_self hi]
        · have h1 : (acc.set i (fetchSlot env deadline loc))[i]? = none := by
            rw [List.getElem?_eq_none]
            simp
            omega
          have h2 : acc[i]? = none := by
            rw [List.getElem?_eq_none]
            omega
          simp [hjlen, hi, h1, h2]
      · simp [hij, List.getElem?_set_ne (by omega : j ≠ i)]

theorem getElem?_foldl_writeSlot (env deadline locations) (order : List Nat) :
    ∀ (acc : List WeatherData), acc.length = locations.length → ∀ i,
      (order.foldl (writeSlot env deadline locations) acc)[i]? =
        if i ∈ order ∧ i < locations.length
        then locations[i]?.map (fetchSlot env deadline)
        else acc[i]? := by
  induction order with
  | nil =>
      intro acc _ i
      simp
  | cons j rest ih =>
      intro acc hlen i
      have hlen' : (writeSlot env deadline locations acc j).length = locations.length := by
        rw [length_writeSlot]; exact hlen
      rw [List.foldl_cons, ih _ hlen' i, getElem?_writeSlot]
      by_cases hmem : i ∈ rest
      · by_cases hi : i < locations.length
        · simp [hmem, hi]
        · have h2 : acc[i]? = none := by rw [List.getElem?_eq_none]; omega
          by_cases hij : i = j
          · subst hij
            simp [hmem, hi, h2]
          · simp [hmem, hi, hij, h2]
      · by_cases hij : i = j
        · subst hij
          by_cases hi : i < locations.length
          · simp [hmem, hi, hlen]
          · simp [hmem, hi]
        · simp [hmem, hij]

theorem fetchMultiple_eq_map (env deadline locations) (order : List Nat)
    (h : order.Perm (List.range locations.length)) :
    FetchMultiple env deadline locations order = locations.map (fetchSlot env deadline) := by
  apply List.ext_getElem?
  intro i
  unfold FetchMultiple
  rw [getElem?_foldl_writeSlot env deadline locations order _ (by simp) i]
  have hmem : i ∈ order ↔ i < locations.length := by
    rw [h.mem_iff, List.mem_range]
  by_cases hi : i < locations.length
  · simp [hmem.mpr hi, hi]
  · have hno : i ∉ order := fun hc => hi (hmem.mp hc)
    have h1 : locations[i]? = none := by rw [List.getElem?_eq_none]; omega
    have h2 : (List.replicate locations.length zeroWeatherData)[i]? = none := by
      rw [List.getElem?_eq_none]
      simpa using by omega
    simp [hno, hi, h1, h2]

end Weathersync

namespace WeatherCompare

theorem combineMin_none_right (a : Option Rat) : combineMin a none = a := by
  cases a <;> rfl

theorem combineMax_none_right (a : Option Rat) : combineMax a none = a := by
  cases a <;> rfl

theorem combineMin_assoc (a b c : Option Rat) :
    combineMin (combineMin a b) c = combineMin a (combineMin b c) := by
  cases a <;> cases b <;> cases c <;> simp [combineMin, min_assoc]

theorem combineMax_assoc (a b c : Option Rat) :
    combineMax (combineMax a b) c = combineMax a (combineMax b c) := by
  cases a <;> cases b <;> cases c <;> simp [combineMax, max_assoc]

theorem optMinList_cons (x : Rat) (xs : List Rat) :
    optMinList (x :: xs) = combineMin (some x) (optMinList xs) := by
  cases h : optMinList xs <;> simp [optMinList, h, combineMin]

theorem optMaxList_cons (x : Rat) (xs : List Rat) :
    optMaxList (x :: xs) = combineMax (some x) (optMaxList xs) := by
  cases h : optMaxList xs <;> simp [optMaxList, h, combineMax]

theorem statsStep_min_aux (a : Option Rat) (t : Rat) :
    some (match a with
      | none => t
      | some m => if t < m then t else m) = combineMin a (some t) := by
  cases a with
  | none => rfl
  | some m =>
      show some (if t < m then t else m) = some (min m t)
      congr 1
      rcases le_or_lt m t with h | h
      · rw [if_neg (not_lt.mpr h), min_eq_left h]
      · rw [if_pos h, min_eq_right (le_of_lt h)]

theorem statsStep_max_aux (a : Option Rat) (t : Rat) :
    some (match a with
      | none => t
      | some m => if t > m then t else m) = combineMax a (some t) := by
  cases a with
  | none => rfl
  | some m =>
      show some (if t > m then t else m) = some (max m t)
      congr 1
      rcases le_or_lt t m with h | h
      · rw [if_neg (not_lt.mpr h), max_eq_left h]
      · rw [if_pos h, max_eq_right (le_of_lt h)]

theorem foldl_statsStep (items : List WeatherResult) :
    ∀ acc : GroupStatsAcc,
      items.foldl statsStep acc =
        { tempSum := acc.tempSum + ((validItems items).map (fun it => it.temperature)).sum
          tempCount := acc.tempCount + (validItems items).length
          minTemp := combineMin acc.minTemp
            (optMinList ((validItems items).map (fun it => it.temperature)))
          maxTemp := combineMax acc.maxTemp
            (optMaxList ((validItems items).map (fun it => it.temperature)))
          fetchSum := acc.fetchSum + (items.map (fun it => it.fetchDurationSeconds)).sum
          fetchCount := acc.fetchCount + items.length
          minFetch := combineMin acc.minFetch
            (optMinList (items.map (fun it => it.fetchDurationSeconds)))
          maxFetch := combineMax acc.maxFetch
            (optMaxList (items.map (fun it => it.fetchDurationSeconds))) } := by
  induction items with
  | nil =>
      intro acc
      simp [validItems, optMinList, optMaxList, combineMin_none_right, combineMax_none_right]
  | cons it rest ih =>
      intro acc
      rw [List.foldl_cons, ih]
      by_cases h : it.error.isNone
      · have hv : validItems (it :: rest) = it :: validItems rest := by
          simp [validItems, List.filter_cons, h]
        rw [hv]
        simp only [statsStep, h, if_true, List.map_cons, List.sum_cons, List.length_cons]
        congr 1
        · ring
        · omega
        · rw [optMinList_cons, statsStep_min_aux, combineMin_assoc]
        · rw [optMaxList_cons, statsStep_max_aux, combineMax_assoc]
        · ring
        · omega
        · rw [optMinList_cons, statsStep_min_aux, combineMin_assoc]
        · rw [optMaxList_cons, statsStep_max_aux, combineMax_assoc]
      · have hv : validItems (it :: rest) = validItems rest := by
          simp [validItems, List.filter_cons, h]
        have hb : it.error.isNone = false := by
          cases hh : it.error.isNone
          · rfl
          · exact absurd hh h
        rw [hv]
        simp only [statsStep, hb, Bool.false_eq_true, if_false, List.map_cons, List.sum_cons,
          List.length_cons]
        congr 1
        · ring
        · omega
        · rw [optMinList_cons, statsStep_min_aux, combineMin_assoc]
        · rw [optMaxList_cons, statsStep_max_aux, combineMax_assoc]

theorem groupStats_eq (items : List WeatherResult) :
    groupStats items =
      { tempSum := ((validItems items).map (fun it => it.temperature)).sum
        tempCount := (validItems items).length
        minTemp := optMinList ((validItems items).map (fun it => it.temperature))
        maxTemp := optMaxList ((validItems items).map (fun it => it.temperature))
        fetchSum := (items.map (fun it => it.fetchDurationSeconds)).sum
        fetchCount := items.length
        minFetch := optMinList (items.map (fun it => it.fetchDurationSeconds))
        maxFetch := optMaxList (items.map (fun it => it.fetchDurationSeconds)) } := by
  unfold groupStats
  rw [foldl_statsStep]
  simp [initStats, combineMin, combineMax]

theorem strAppend_assoc (a b c : String) : a ++ b ++ c = a ++ (b ++ c) := by
  cases a with
  | mk da =>
    cases b with
    | mk db =>
      cases c with
      | mk dc =>
        show String.mk (da ++ db ++ dc) = String.mk (da ++ (db ++ dc))
        rw [List.append_assoc]

theorem strAppend_empty_left (s : String) : "" ++ s = s := by
  cases s with
  | mk d =>
    show String.mk ([] ++ d) = String.mk d
    rw [List.nil_append]

theorem join_foldl (l : List String) : ∀ init : String,
    l.foldl (fun r s => r ++ s) init = init ++ String.join l := by
  induction l with
  | nil =>
      intro init
      show init = init ++ String.join []
      show init = init ++ ""
      cases init with
      | mk d =>
          show String.mk d = String.mk (d ++ [])
          rw [List.append_nil]
  | cons x xs ih =>
      intro init
      rw [List.foldl_cons, ih]
      have hx : String.join (x :: xs) = x ++ String.join xs := by
        show (x :: xs).foldl (fun r s => r ++ s) "" = x ++ String.join xs
        rw [List.foldl_cons, ih, strAppend_empty_left]
      rw [hx, strAppend_assoc]

theorem join_cons (x : String) (xs : List String) :
    String.join (x :: xs) = x ++ String.join xs := by
  show (x :: xs).foldl (fun r s => r ++ s) "" = x ++ String.join xs
  rw [List.foldl_cons, join_foldl, strAppend_empty_left]

theorem join_append (l1 l2 : List String) :
    String.join (l1 ++ l2) = String.join l1 ++ String.join l2 := by
  induction l1 with
  | nil =>
      rw [List.nil_append]
      show String.join l2 = "" ++ String.join l2
      rw [strAppend_empty_left]
  | cons x xs ih => rw [List.cons_append, join_cons, join_cons, ih, strAppend_assoc]

theorem groupsOf_aux (weatherData : List WeatherResult) :
    ∀ (g : String → List WeatherResult) (c : String),
      (weatherData.foldl
        (fun groups r => fun c => if c == r.continent then groups c ++ [r] else groups c) g) c
        = g c ++ weatherData.filter (fun r => r.continent == c) := by
  induction weatherData with
  | nil =>
      intro g c
      simp
  | cons r rest ih =>
      intro g c
      rw [List.foldl_cons, ih]
      by_cases h : c = r.continent
      · subst h
        simp [List.filter_cons]
      · have h1 : (c == r.continent) = false := by simpa using h
        have h2 : (r.continent == c) = false := by simpa using fun hh => h hh.symm
        simp [List.filter_cons, h1, h2]

theorem groupsOf_eq_filter (weatherData : List WeatherResult) (c : String) :
    groupsOf weatherData c = weatherData.filter (fun r => r.continent == c) := by
  unfold groupsOf
  rw [groupsOf_aux]
  simp

end WeatherCompare

namespace Weathersync

theorem fetchWeather_ok (env : Location → WsCall) (deadline : Option Rat) (loc : Location)
    (d : WeatherData) (h : FetchWeather env deadline loc = Except.ok d) :
    d.location = loc ∧ d.error = none ∧ d.fetchDuration = (runWsCall (env loc) deadline).2 := by
  simp only [FetchWeather] at h
  rcases hr : runWsCall (env loc) deadline with ⟨resp, elapsed⟩
  rw [hr] at h
  dsimp only at h
  dsimp only
  cases resp with
  | transportError msg => simp at h
  | reply status decoded =>
      dsimp only at h
      by_cases hs : status ≠ 200
      · rw [if_pos hs] at h
        simp at h
      · rw [if_neg hs] at h
        cases decoded with
        | error msg => simp at h
        | ok temp =>
            injection h with h1
            subst h1
            exact ⟨rfl, rfl, rfl⟩

theorem fetchSlot_of_error (env : Location → WsCall) (deadline : Option Rat) (loc : Location)
    (e : String) (h : FetchWeather env deadline loc = Except.error e) :
    fetchSlot env deadline loc =
      { location := loc, temperature := 0, fetchDuration := 0, timestamp := 0,
        error := some e } := by
  unfold fetchSlot
  rw [h]

theorem fetchSlot_location (env : Location → WsCall) (deadline : Option Rat) (loc : Location) :
    (fetchSlot env deadline loc).location = loc := by
  unfold fetchSlot
  cases hf : FetchWeather env deadline loc with
  | error e => rfl
  | ok d => exact (fetchWeather_ok env deadline loc d hf).1

end Weathersync

namespace Weathersync

/-- C1: For every non-empty input list of locations of length n,
FetchMultiple returns a result list of exactly length n, equal to the
positional map of the per-location fetch over the input for every
completion order of the concurrent fetches, so the result at index i
carries the Location that was at index i of the input. -/
theorem fetchMultiple_positional_correspondence (env : Location → WsCall)
    (deadline : Option Rat) (locations : List Location) (order : List Nat)
    (h : order.Perm (List.range locations.length)) (hne : locations ≠ []) :
    (FetchMultiple env deadline locations order).length = locations.length ∧
    FetchMultiple env deadline locations order = locations.map (fetchSlot env deadline) ∧
    ∀ (i : Nat) (loc : Location), locations[i]? = some loc →
      (FetchMultiple env deadline locations order)[i]?.map
        (fun r : WeatherData => r.location) = some loc := by
  have hmap := fetchMultiple_eq_map env deadline locations order h
  refine ⟨by rw [hmap]; simp, hmap, ?_⟩
  intro i loc hloc
  rw [hmap, List.getElem?_map, hloc]
  simp [fetchSlot_location]

/-- C1 witness: the theorem instantiated at two locations with completion
order reversed from input order. -/
theorem fetchMultiple_positional_correspondence_witness :
    ([1, 0].Perm (List.range exLocs1.length)) ∧ exLocs1 ≠ [] ∧
    ((FetchMultiple exEnv1 none exLocs1 [1, 0]).length = exLocs1.length ∧
     FetchMultiple exEnv1 none exLocs1 [1, 0] = exLocs1.map (fetchSlot exEnv1 none) ∧
     ∀ (i : Nat) (loc : Location), exLocs1[i]? = some loc →
       (FetchMultiple exEnv1 none exLocs1 [1, 0])[i]?.map
         (fun r : WeatherData => r.location) = some loc) :=
  ⟨by decide, by decide,
   fetchMultiple_positional_correspondence exEnv1 none exLocs1 [1, 0] (by decide) (by decide)⟩

/-- C2: For every input list and every endpoint behaviour, FetchMultiple
produces exactly one result per input location, and the results whose
fetch did not fail are exactly the results of running FetchMultiple on the
input with the failing locations removed: one failure never suppresses or
corrupts another result. -/
theorem fetchMultiple_failure_isolation (env : Location → WsCall) (deadline : Option Rat)
    (locations : List Location) (order order2 : List Nat)
    (h : order.Perm (List.range locations.length))
    (h2 : order2.Perm (List.range
      (locations.filter (fun loc => (fetchSlot env deadline loc).error.isNone)).length)) :
    (FetchMultiple env deadline locations order).length = locations.length ∧
    (FetchMultiple env deadline locations order).filter (fun r => r.error.isNone)
      = FetchMultiple env deadline
          (locations.filter (fun loc => (fetchSlot env deadline loc).error.isNone)) order2 := by
  constructor
  · rw [fetchMultiple_eq_map env deadline locations order h]
    simp
  · rw [fetchMultiple_eq_map env deadline locations order h,
        fetchMultiple_eq_map env deadline _ order2 h2,
        List.filter_map]
    rfl

/-- C2 witness: the theorem instantiated at three locations of which the
middle one fails. -/
theorem fetchMultiple_failure_isolation_witness :
    ([2, 0, 1].Perm (List.range exLocs2.length)) ∧
    ([1, 0].Perm (List.range
      (exLocs2.filter (fun loc => (fetchSlot exEnv2 none loc).error.isNone)).length)) ∧
    ((FetchMultiple exEnv2 none exLocs2 [2, 0, 1]).length = exLocs2.length ∧
     (FetchMultiple exEnv2 none exLocs2 [2, 0, 1]).filter (fun r => r.error.isNone)
       = FetchMultiple exEnv2 none
           (exLocs2.filter (fun loc => (fetchSlot exEnv2 none loc).error.isNone)) [1, 0]) :=
  ⟨by decide, by decide,
   fetchMultiple_failure_isolation exEnv2 none exLocs2 [2, 0, 1] [1, 0] (by decide) (by decide)⟩

/-- C8: For the empty input list, FetchMultiple returns the empty result
collection and issues no remote fetch, whatever the scheduling. -/
theorem fetchMultiple_empty_no_calls (env : Location → WsCall) (deadline : Option Rat)
    (order : List Nat) :
    FetchMultiple env deadline [] order = [] ∧ fetchCalls [] order = [] := by
  constructor
  · have hl := length_foldl_writeSlot env deadline [] order
      (List.replicate (List.length ([] : List Location)) zeroWeatherData)
    apply List.eq_nil_of_length_eq_zero
    simpa using hl
  · unfold fetchCalls
    suffices hgen : ∀ (o : List Nat) (tr : List Location),
        o.foldl (fun tr i =>
          match ([] : List Location)[i]? with
          | some loc => tr ++ [loc]
          | none => tr) tr = tr from hgen order []
    intro o
    induction o with
    | nil => intro tr; rfl
    | cons j rest ih =>
        intro tr
        rw [List.foldl_cons]
        exact ih _

end Weathersync

namespace WeatherCompare

/-- C3: In every group the temperature statistics of CompareWeatherData
range over exactly the items whose Error is nil while the latency
statistics range over all items; in particular a group with valid
temperatures 10, 20 and 30 reports average 20, min 10 and max 30, and a
group with fetch durations 0.1, 0.2 and 0.05 seconds, the last on a failed
item, reports latency average (0.1 + 0.2 + 0.05) / 3, min 0.05 and max
0.2. -/
theorem compare_group_statistics :
    (∀ items : List WeatherResult,
      (groupStats items).tempCount = (validItems items).length ∧
      (groupStats items).tempSum = ((validItems items).map (fun it => it.temperature)).sum ∧
      (groupStats items).minTemp
        = optMinList ((validItems items).map (fun it => it.temperature)) ∧
      (groupStats items).maxTemp
        = optMaxList ((validItems items).map (fun it => it.temperature)) ∧
      (groupStats items).fetchCount = items.length ∧
      (groupStats items).fetchSum = (items.map (fun it => it.fetchDurationSeconds)).sum ∧
      (groupStats items).minFetch
        = optMinList (items.map (fun it => it.fetchDurationSeconds)) ∧
      (groupStats items).maxFetch
        = optMaxList (items.map (fun it => it.fetchDurationSeconds))) ∧
    (let g1 : List WeatherResult :=
      [{ city := "A", temperature := 10, continent := "X", error := none,
         fetchDurationSeconds := 1 },
       { city := "B", temperature := 20, continent := "X", error := none,
         fetchDurationSeconds := 1 },
       { city := "C", temperature := 30, continent := "X", error := none,
         fetchDurationSeconds := 1 }]
     (groupStats g1).tempCount = 3 ∧
     (groupStats g1).tempSum / ((groupStats g1).tempCount : Rat) = 20 ∧
     (groupStats g1).minTemp = some 10 ∧
     (groupStats g1).maxTemp = some 30) ∧
    (let g2 : List WeatherResult :=
      [{ city := "A", temperature := 11, continent := "Y", error := none,
         fetchDurationSeconds := 1 / 10 },
       { city := "B", temperature := 12, continent := "Y", error := none,
         fetchDurationSeconds := 1 / 5 },
       { city := "C", temperature := 0, continent := "Y", error := some "API status 500",
         fetchDurationSeconds := 1 / 20 }]
     (groupStats g2).fetchCount = 3 ∧
     (groupStats g2).fetchSum / ((groupStats g2).fetchCount : Rat)
       = (1 / 10 + 1 / 5 + 1 / 20) / 3 ∧
     (groupStats g2).minFetch = some (1 / 20) ∧
     (groupStats g2).maxFetch = some (1 / 5)) := by
  refine ⟨?_, ?_, ?_⟩
  · intro items
    rw [groupStats_eq]
    exact ⟨rfl, rfl, rfl, rfl, rfl, rfl, rfl, rfl⟩
  · dsimp only
    rw [groupStats_eq]
    refine ⟨?_, ?_, ?_, ?_⟩ <;>
      norm_num [validItems, List.filter, optMinList, optMaxList, min_def, max_def]
  · dsimp only
    rw [groupStats_eq]
    refine ⟨?_, ?_, ?_, ?_⟩ <;>
      norm_num [validItems, List.filter, optMinList, optMaxList, min_def, max_def]

/-- C4: A group in which no item carries a valid measurement yields
tempCount zero, so the guarded average branch is never taken (no division
by zero is evaluated) and the group section carries the explicit
no-valid-data marker instead of a temperature statistics line. -/
theorem compare_no_valid_marker (cont : String) (items : List WeatherResult)
    (contDurations : List (String × Nat)) (h : (validItems items).length = 0) :
    (groupStats items).tempCount = 0 ∧
    tempPortion (groupStats items) = "No valid temperature data for this continent.\n" ∧
    ∃ pre post, groupSection cont items contDurations
      = pre ++ ("No valid temperature data for this continent.\n" ++ post) := by
  have hc : (groupStats items).tempCount = 0 := by
    rw [groupStats_eq]
    exact h
  have hp : tempPortion (groupStats items)
      = "No valid temperature data for this continent.\n" := by
    unfold tempPortion
    rw [hc]
    simp
  refine ⟨hc, hp, ?_⟩
  refine ⟨"\nContinent: " ++ cont ++ "\n" ++ "----------------------------------------\n" ++
      wallTimePortion cont contDurations,
    fetchPortion (groupStats items) ++
      ("\nPer-city results:\n" ++ String.join (items.map itemLine)), ?_⟩
  unfold groupSection
  rw [hp]
  simp only [strAppend_assoc]

/-- C4 witness: the theorem instantiated at a two-item group whose fetches
both failed. -/
theorem compare_no_valid_marker_witness :
    (validItems exItems4).length = 0 ∧
    ((groupStats exItems4).tempCount = 0 ∧
     tempPortion (groupStats exItems4) = "No valid temperature data for this continent.\n" ∧
     ∃ pre post, groupSection "Africa" exItems4 []
       = pre ++ ("No valid temperature data for this continent.\n" ++ post)) :=
  ⟨by decide, compare_no_valid_marker "Africa" exItems4 [] (by decide)⟩

/-- C10: FetchWeatherData returns a non-nil function error exactly when the
Error field of the returned WeatherResult is non-nil, and in every return
path the City field of the result equals the city argument. -/
theorem fetchWeatherData_error_iff_city (c : WcCall) (city : String) (lat lon : Rat) :
    ((FetchWeatherData c city lat lon).2.isSome
      ↔ (FetchWeatherData c city lat lon).1.error.isSome) ∧
    (FetchWeatherData c city lat lon).1.city = city := by
  unfold FetchWeatherData runWcCall
  dsimp only
  cases c.response with
  | transportError msg => simp
  | reply status decoded =>
      dsimp only
      by_cases hs : status ≠ 200
      · rw [if_pos hs]
        simp
      · rw [if_neg hs]
        cases decoded with
        | error msg => simp
        | ok temps =>
            cases temps with
            | nil => simp
            | cons t ts => simp

end WeatherCompare

/-- C5 counterexample: with an endpoint whose call fails after five
wall-clock seconds, the slot FetchMultiple produces for that location
carries a zero FetchDuration instead of the measured five seconds, so not
every per-item result of the pipeline carries the measured fetch
duration. -/
theorem fetchDuration_failure_counterexample :
    (Weathersync.runWsCall (Weathersync.exEnv5 Weathersync.exLoc5) none).2 = 5 ∧
    (Weathersync.FetchMultiple Weathersync.exEnv5 none [Weathersync.exLoc5] [0])[0]?.map
      (fun r : Weathersync.WeatherData => r.error.isSome) = some true ∧
    (Weathersync.FetchMultiple Weathersync.exEnv5 none [Weathersync.exLoc5] [0])[0]?.map
      (fun r : Weathersync.WeatherData => r.fetchDuration) = some 0 ∧
    ¬((Weathersync.FetchMultiple Weathersync.exEnv5 none [Weathersync.exLoc5] [0])[0]?.map
      (fun r : Weathersync.WeatherData => r.fetchDuration)
        = some (Weathersync.runWsCall (Weathersync.exEnv5 Weathersync.exLoc5) none).2) := by
  refine ⟨by decide, by decide, by decide, by decide⟩

/-- C5 amended: the weather-compare fetcher FetchWeatherData records the
measured wall-clock time of the attempt in the result on every return
path, success or failure; in the weathersync library the measured duration
reaches the result only on success - FetchWeather discards it on failure,
and the slot FetchMultiple stores for a failed location carries a zero
FetchDuration. -/
theorem fetchDuration_recorded_amended :
    (∀ (c : WeatherCompare.WcCall) (city : String) (lat lon : Rat),
      (WeatherCompare.FetchWeatherData c city lat lon).1.fetchDurationSeconds
        = (WeatherCompare.runWcCall c).2) ∧
    (∀ (env : Weathersync.Location → Weathersync.WsCall) (deadline : Option Rat)
        (loc : Weathersync.Location) (d : Weathersync.WeatherData),
      Weathersync.FetchWeather env deadline loc = Except.ok d →
        d.fetchDuration = (Weathersync.runWsCall (env loc) deadline).2) ∧
    (∀ (env : Weathersync.Location → Weathersync.WsCall) (deadline : Option Rat)
        (loc : Weathersync.Location) (e : String),
      Weathersync.FetchWeather env deadline loc = Except.error e →
        (Weathersync.fetchSlot env deadline loc).fetchDuration = 0) := by
  refine ⟨?_, ?_, ?_⟩
  · intro c city lat lon
    unfold WeatherCompare.FetchWeatherData WeatherCompare.runWcCall
    dsimp only
    cases c.response with
    | transportError msg => rfl
    | reply status decoded =>
        dsimp only
        by_cases hs : status ≠ 200
        · rw [if_pos hs]
        · rw [if_neg hs]
          cases decoded with
          | error msg => rfl
          | ok temps =>
              cases temps with
              | nil => rfl
              | cons t ts => rfl
  · intro env deadline loc d h
    exact (Weathersync.fetchWeather_ok env deadline loc d h).2.2
  · intro env deadline loc e h
    rw [Weathersync.fetchSlot_of_error env deadline loc e h]

/-- C5 witness: the amended theorem instantiated at a concrete
weather-compare call, a succeeding weathersync fetch and a failing
weathersync fetch. -/
theorem fetchDuration_recorded_amended_witness :
    (WeatherCompare.FetchWeatherData WeatherCompare.exCall5 "Berlin" 52 13).1.fetchDurationSeconds
      = (WeatherCompare.runWcCall WeatherCompare.exCall5).2 ∧
    (Weathersync.FetchWeather Weathersync.exEnv5b none Weathersync.exLoc5
      = Except.ok { location := Weathersync.exLoc5, temperature := 15, fetchDuration := 2,
                    timestamp := 3, error := none } ∧
     ({ location := Weathersync.exLoc5, temperature := 15, fetchDuration := 2,
        timestamp := 3, error := none } : Weathersync.WeatherData).fetchDuration
       = (Weathersync.runWsCall (Weathersync.exEnv5b Weathersync.exLoc5) none).2) ∧
    (Weathersync.FetchWeather Weathersync.exEnv5 none Weathersync.exLoc5
      = Except.error "http request: connection refused" ∧
     (Weathersync.fetchSlot Weathersync.exEnv5 none Weathersync.exLoc5).fetchDuration = 0) :=
  ⟨fetchDuration_recorded_amended.1 WeatherCompare.exCall5 "Berlin" 52 13,
   ⟨by decide,
    fetchDuration_recorded_amended.2.1 Weathersync.exEnv5b none Weathersync.exLoc5
      { location := Weathersync.exLoc5, temperature := 15, fetchDuration := 2,
        timestamp := 3, error := none } (by decide)⟩,
   ⟨by decide,
    fetchDuration_recorded_amended.2.2 Weathersync.exEnv5 none Weathersync.exLoc5
      "http request: connection refused" (by decide)⟩⟩

namespace Weathersync

/-- C9 amended: FetchWeather honours the caller deadline - when the
deadline elapses before the remote call would complete naturally, the
transport resolves at the deadline with a transport error rather than at
its natural completion time, and FetchWeather returns a failure; the
weather-compare entry point FetchWeatherData accepts no deadline and
always runs to natural completion (see the counterexample). -/
theorem fetchWeather_honors_deadline (env : Location → WsCall) (loc : Location) (d : Rat)
    (h : d < (env loc).naturalSeconds) :
    runWsCall (env loc) (some d)
      = (WsResponse.transportError "context deadline exceeded", d) ∧
    FetchWeather env (some d) loc
      = Except.error ("http request: " ++ "context deadline exceeded") := by
  have hr : runWsCall (env loc) (some d)
      = (WsResponse.transportError "context deadline exceeded", d) := by
    unfold runWsCall
    dsimp only
    rw [if_pos h]
  refine ⟨hr, ?_⟩
  simp only [FetchWeather]
  rw [hr]

/-- C9 witness: the amended theorem instantiated at an endpoint taking ten
seconds and a one-second deadline. -/
theorem fetchWeather_honors_deadline_witness :
    ((1 : Rat) < (exEnv9 exLoc9).naturalSeconds) ∧
    (runWsCall (exEnv9 exLoc9) (some 1)
      = (WsResponse.transportError "context deadline exceeded", 1) ∧
     FetchWeather exEnv9 (some 1) exLoc9
      = Except.error ("http request: " ++ "context deadline exceeded")) :=
  ⟨by decide, fetchWeather_honors_deadline exEnv9 exLoc9 1 (by decide)⟩

end Weathersync

namespace WeatherCompare

/-- C9 counterexample: the weather-compare fetch entry point takes no
deadline parameter - with a remote call whose natural completion takes ten
seconds and an intended caller deadline of one second, FetchWeatherData
still returns the natural success with ten seconds of measured wall time
instead of failing at the one-second deadline boundary. -/
theorem fetchWeatherData_ignores_deadline_counterexample :
    ((1 : Rat) < exCall9.naturalSeconds) ∧
    (FetchWeatherData exCall9 "Berlin" 52 13).2 = none ∧
    (FetchWeatherData exCall9 "Berlin" 52 13).1.error = none ∧
    (FetchWeatherData exCall9 "Berlin" 52 13).1.fetchDurationSeconds = 10 ∧
    ¬((FetchWeatherData exCall9 "Berlin" 52 13).1.fetchDurationSeconds ≤ 1) := by
  refine ⟨by norm_num [exCall9], by decide, by decide, by decide, ?_⟩
  have h : (FetchWeatherData exCall9 "Berlin" 52 13).1.fetchDurationSeconds = 10 := by decide
  rw [h]
  norm_num

end WeatherCompare

namespace WeatherCompare

theorem join_mem_split (s : String) (l : List String) (h : s ∈ l) :
    ∃ A B, String.join l = A ++ (s ++ B) := by
  obtain ⟨l1, l2, rfl⟩ := List.append_of_mem h
  refine ⟨String.join l1, String.join l2, ?_⟩
  rw [join_append, join_cons]

theorem split_prepend (x s p : String) (h : ∃ A B, s = A ++ (x ++ B)) :
    ∃ A B, p ++ s = A ++ (x ++ B) := by
  obtain ⟨A, B, rfl⟩ := h
  exact ⟨p ++ A, B, by rw [strAppend_assoc]⟩

theorem split_trans (x s t : String) (hst : ∃ A B, t = A ++ (s ++ B))
    (hs : ∃ A B, s = A ++ (x ++ B)) : ∃ A B, t = A ++ (x ++ B) := by
  obtain ⟨A1, B1, rfl⟩ := hst
  obtain ⟨A2, B2, rfl⟩ := hs
  refine ⟨A1 ++ A2, B2 ++ B1, ?_⟩
  simp only [strAppend_assoc]

theorem sum_map_split (order : List String) (f g : String → Nat) :
    ((order.map (fun c => f c + g c)).sum) = (order.map f).sum + (order.map g).sum := by
  induction order with
  | nil => simp
  | cons c rest ih =>
      simp only [List.map_cons, List.sum_cons, ih]
      omega

theorem sum_indicator_zero (x : String) (order : List String) (hx : x ∉ order) :
    ((order.map (fun c => if x == c then 1 else 0)).sum) = 0 := by
  induction order with
  | nil => rfl
  | cons c rest ih =>
      have hxc : ¬(x == c) = true := by
        simp only [beq_iff_eq]
        intro hh
        exact hx (hh ▸ List.mem_cons_self c rest)
      have hxr : x ∉ rest := fun hh => hx (List.mem_cons_of_mem c hh)
      simp only [List.map_cons, List.sum_cons, if_neg hxc, ih hxr]

theorem sum_indicator_one (x : String) (order : List String) (hnd : order.Nodup)
    (hx : x ∈ order) :
    ((order.map (fun c => if x == c then 1 else 0)).sum) = 1 := by
  induction order with
  | nil => cases hx
  | cons c rest ih =>
      rw [List.map_cons, List.sum_cons]
      rcases List.mem_cons.mp hx with h | h
      · subst h
        have hxr : x ∉ rest := (List.nodup_cons.mp hnd).1
        rw [if_pos (by simp), sum_indicator_zero x rest hxr]
      · have hxc : ¬(x == c) = true := by
          simp only [beq_iff_eq]
          intro hh
          subst hh
          exact (List.nodup_cons.mp hnd).1 h
        rw [if_neg hxc, ih (List.nodup_cons.mp hnd).2 h]

theorem sum_filter_lengths (weatherData : List WeatherResult) (order : List String)
    (hnd : order.Nodup) (hcov : ∀ it ∈ weatherData, it.continent ∈ order) :
    ((order.map (fun c => (weatherData.filter (fun r => r.continent == c)).length)).sum)
      = weatherData.length := by
  induction weatherData with
  | nil => simp
  | cons it rest ih =>
      have hcov' : ∀ x ∈ rest, x.continent ∈ order :=
        fun x hx => hcov x (List.mem_cons_of_mem _ hx)
      have hit : it.continent ∈ order := hcov it (List.mem_cons_self _ _)
      have hstep : ∀ c ∈ order,
          (List.filter (fun r => r.continent == c) (it :: rest)).length
            = (if it.continent == c then 1 else 0)
              + (List.filter (fun r => r.continent == c) rest).length := by
        intro c _
        rw [List.filter_cons]
        by_cases hb : (it.continent == c) = true
        · simp [hb]
          omega
        · simp [hb]
      rw [List.map_congr_left hstep, sum_map_split,
          sum_indicator_one it.continent order hnd hit, ih hcov']
      simp [Nat.add_comm]

end WeatherCompare

namespace WeatherCompare

/-- C7: Under any iteration order of the groups map, the report of
CompareWeatherData accounts for every input item: the per-item line counts
of the sections sum to the input length, every input item contributes its
per-city line to the rendered report, and the line of a failed item
carries the failure message text. -/
theorem report_accounts_every_item (weatherData : List WeatherResult)
    (contDurations : List (String × Nat)) (order : List String)
    (h : order.Perm (contKeys weatherData)) :
    ((order.map (fun c => (groupsOf weatherData c).length)).sum = weatherData.length) ∧
    (∀ it ∈ weatherData, ∃ A B,
      CompareWeatherData weatherData contDurations order = A ++ (itemLine it ++ B)) ∧
    (∀ (it : WeatherResult) (e : String), it.error = some e →
      ∃ p q, itemLine it = p ++ (e ++ q)) := by
  have hnd : order.Nodup := (h.nodup_iff).mpr (List.nodup_dedup _)
  have hcov : ∀ it ∈ weatherData, it.continent ∈ order := by
    intro it hit
    rw [h.mem_iff]
    exact List.mem_dedup.mpr (List.mem_map_of_mem _ hit)
  refine ⟨?_, ?_, ?_⟩
  · have hmc : (order.map (fun c => (groupsOf weatherData c).length))
        = order.map (fun c => (weatherData.filter (fun r => r.continent == c)).length) := by
      apply List.map_congr_left
      intro c _
      rw [groupsOf_eq_filter]
    rw [hmc, sum_filter_lengths weatherData order hnd hcov]
  · intro it hit
    have hne : weatherData.isEmpty = false := by
      cases weatherData
      · cases hit
      · rfl
    have hc : it.continent ∈ order := hcov it hit
    have hsec : groupSection it.continent (groupsOf weatherData it.continent) contDurations
        ∈ order.map (fun c => groupSection c (groupsOf weatherData c) contDurations) :=
      List.mem_map_of_mem _ hc
    have hitem : itemLine it ∈ (groupsOf weatherData it.continent).map itemLine := by
      apply List.mem_map_of_mem
      rw [groupsOf_eq_filter, List.mem_filter]
      exact ⟨hit, by simp⟩
    have hsplit_line : ∃ A B,
        groupSection it.continent (groupsOf weatherData it.continent) contDurations
          = A ++ (itemLine it ++ B) := by
      obtain ⟨A2, B2, h2⟩ := join_mem_split _ _ hitem
      refine ⟨("\nContinent: " ++ it.continent ++ "\n" ++
          "----------------------------------------\n" ++
          wallTimePortion it.continent contDurations ++
          tempPortion (groupStats (groupsOf weatherData it.continent)) ++
          fetchPortion (groupStats (groupsOf weatherData it.continent)) ++
          "\nPer-city results:\n") ++ A2, B2, ?_⟩
      unfold groupSection
      rw [h2]
      simp only [strAppend_assoc]
    have hrw : CompareWeatherData weatherData contDurations order
        = ("Weather comparison summary\n" ++ "========================================\n")
          ++ String.join (order.map (fun cont =>
               groupSection cont (groupsOf weatherData cont) contDurations)) := by
      unfold CompareWeatherData
      rw [if_neg (by simp [hne])]
    rw [hrw]
    exact split_prepend _ _ _ (split_trans _ _ _ (join_mem_split _ _ hsec) hsplit_line)
  · intro it e he
    unfold itemLine
    rw [he]
    exact ⟨"  " ++ it.city ++ ": ERROR: ",
      " (fetch " ++ (fmtFixed 3 it.fetchDurationSeconds ++ "s)\n"),
      by simp only [strAppend_assoc]⟩

/-- C7 witness: the theorem instantiated at a three-item input with one
failed fetch, spanning two continents. -/
theorem report_accounts_every_item_witness :
    (["Europe", "Africa"].Perm (contKeys exData7)) ∧
    (((["Europe", "Africa"].map (fun c => (groupsOf exData7 c).length)).sum = exData7.length) ∧
     (∀ it ∈ exData7, ∃ A B,
       CompareWeatherData exData7 [] ["Europe", "Africa"] = A ++ (itemLine it ++ B)) ∧
     (∀ (it : WeatherResult) (e : String), it.error = some e →
       ∃ p q, itemLine it = p ++ (e ++ q))) :=
  ⟨by decide, report_accounts_every_item exData7 [] ["Europe", "Africa"] (by decide)⟩

/-- C6 amended: within each group the per-item lines follow the input
order, each group being the input filtered to its continent in order; the
rendered report is identical across two runs whenever the iteration orders
of the groups map coincide, which is guaranteed when the input holds at
most one distinct continent. For two or more groups the unspecified Go map
iteration order can put the sections in different positions across runs,
so the full report string is not run-independent (see the
counterexample). -/
theorem compare_deterministic_within_group (weatherData : List WeatherResult)
    (contDurations : List (String × Nat)) (o1 o2 : List String)
    (h1 : o1.Perm (contKeys weatherData)) (h2 : o2.Perm (contKeys weatherData)) :
    ((contKeys weatherData).length ≤ 1 →
      CompareWeatherData weatherData contDurations o1
        = CompareWeatherData weatherData contDurations o2) ∧
    (∀ c, groupsOf weatherData c = weatherData.filter (fun r => r.continent == c)) := by
  constructor
  · intro hlen
    have ho : o1 = o2 := by
      rcases hk : contKeys weatherData with _ | ⟨k, rest⟩
      · rw [hk, List.perm_nil] at h1 h2
        rw [h1, h2]
      · rw [hk] at h1 h2
        rw [hk] at hlen
        have hrest : rest = [] := by
          simp only [List.length_cons] at hlen
          exact List.eq_nil_of_length_eq_zero (by omega)
        subst hrest
        rw [List.perm_singleton] at h1 h2
        rw [h1, h2]
    rw [ho]
  · intro c
    exact groupsOf_eq_filter weatherData c

/-- C6 witness: the amended theorem instantiated at a single-continent
input, where the iteration order is forced and the report is
deterministic. -/
theorem compare_deterministic_within_group_witness :
    (["Europe"].Perm (contKeys exData6b)) ∧ ((contKeys exData6b).length ≤ 1) ∧
    (CompareWeatherData exData6b [] ["Europe"] = CompareWeatherData exData6b [] ["Europe"]) ∧
    (∀ c, groupsOf exData6b c = exData6b.filter (fun r => r.continent == c)) :=
  ⟨by decide, by decide,
   (compare_deterministic_within_group exData6b [] ["Europe"] ["Europe"]
      (by decide) (by decide)).1 (by decide),
   (compare_deterministic_within_group exData6b [] ["Europe"] ["Europe"]
      (by decide) (by decide)).2⟩

/-- C6 counterexample: on a two-continent input both section orders are
legitimate runs of the Go map iteration, and they render different report
strings, so two runs on the same input list and duration map need not
produce identical output. -/
theorem compare_group_order_counterexample :
    (["Europe", "Asia"].Perm (contKeys exData6)) ∧
    (["Asia", "Europe"].Perm (contKeys exData6)) ∧
    CompareWeatherData exData6 [] ["Europe", "Asia"]
      ≠ CompareWeatherData exData6 [] ["Asia", "Europe"] := by
  refine ⟨by decide, by decide, ?_⟩
  with_unfolding_all decide

end WeatherCompare
